import Mathlib

/-!
Verification development for the gas-oracle service: the epoch-driven gas
price update loop (`l2geth/rollup/gas_price_updater.go`), the oracle
orchestration (`go/gas-oracle/oracle/gas_price_oracle.go`), the startup
configuration (`go/gas-oracle/oracle/config.go`), and the significance gate
(implementation absent from the sources; its test cases are in the test
file).  Machine integers (Go `uint64`) are modelled as `ℕ` with explicit
`% 2 ^ 64`; Go `float64` values are modelled as exact rationals `ℚ` (the
claims under study do not hinge on binary rounding); Go `error` results are
modelled with `Option`/`Except`; the effectful callback fields
(`getLatestBlockNumberFn`, `CompleteEpoch`, `updateL2GasPriceFn`) are
modelled by passing, at each call, the observation/outcome that one
invocation of the callback produces.
-/

namespace GasOracle

/-- `2 ^ 64`, the modulus of Go's `uint64` arithmetic. -/
def UINT64_LIMIT : ℕ := 2 ^ 64

/-- Embedding of `GetAverageGasPerSecond` from
`l2geth/rollup/gas_price_updater.go`:
`float64((latestBlockNumber - epochStartBlockNumber) * averageBlockGasLimit / epochLengthSeconds)`.
All three operations are `uint64` operations: wrapping subtraction,
wrapping multiplication, and truncating integer division (the quotient of
two values below `2 ^ 64` is below `2 ^ 64`, so no reduction is needed
after the division).  The final `float64` conversion is modelled as the
cast of the resulting integer into `ℚ` where a claim compares it with a
real-valued expression. -/
def GetAverageGasPerSecond (epochStartBlockNumber latestBlockNumber
    epochLengthSeconds averageBlockGasLimit : ℕ) : ℕ :=
  (latestBlockNumber + UINT64_LIMIT - epochStartBlockNumber) % UINT64_LIMIT
    * averageBlockGasLimit % UINT64_LIMIT / epochLengthSeconds

/-- Embedding of the `GasPriceUpdater` struct of
`l2geth/rollup/gas_price_updater.go`.  The struct's data fields are kept
here; its two function-typed fields (`getLatestBlockNumberFn`,
`updateL2GasPriceFn`) and the behaviour of the embedded `gasPricer`'s
`CompleteEpoch` method are supplied per call through `UpdateEnv`, since in
the shallow embedding each call may observe a different chain state.  The
`GasPricer` type (whose source file is not among the sources) is kept
abstract as `P`. -/
structure GasPriceUpdater (P : Type) where
  gasPricer : P
  epochStartBlockNumber : ℕ
  averageBlockGasLimit : ℕ
  epochLengthSeconds : ℕ
deriving DecidableEq

/-- Embedding of `NewGasPriceUpdater` from
`l2geth/rollup/gas_price_updater.go`, including its (vacuous on `uint64`)
check `epochStartBlockNumber < 0`. -/
def NewGasPriceUpdater {P : Type} (gasPricer : P)
    (epochStartBlockNumber averageBlockGasLimit epochLengthSeconds : ℕ) :
    Except String (GasPriceUpdater P) :=
  if epochStartBlockNumber < 0 then
    .error "epochStartBlockNumber must be non-negative."
  else if averageBlockGasLimit < 1 then
    .error "averageBlockGasLimit cannot be less than 1 gas."
  else if epochLengthSeconds < 1 then
    .error "epochLengthSeconds cannot be less than 1 second."
  else
    .ok { gasPricer := gasPricer
          epochStartBlockNumber := epochStartBlockNumber
          averageBlockGasLimit := averageBlockGasLimit
          epochLengthSeconds := epochLengthSeconds }

/-- The outcomes one call to `UpdateGasPrice` can observe from its three
collaborators: the result of one invocation of `getLatestBlockNumberFn`
(`none` models an error), the behaviour of `gasPricer.CompleteEpoch`
(returning, on success, the new price and the mutated pricer state; the
spec's atomic-update semantics mean a failed call leaves the pricer
unchanged), the `curPrice` field accessor, and the result of one
invocation of `updateL2GasPriceFn` (`none` models an error). -/
structure UpdateEnv (P : Type) where
  getLatestBlockNumber : Option ℕ
  completeEpoch : P → ℚ → Except Unit (ℚ × P)
  curPrice : P → ℚ
  updateL2GasPrice : ℚ → Option Unit

/-- The distinct error exits of `UpdateGasPrice` (in Go they are plain
`error` values; they are distinguished here so theorems can name them). -/
inductive UpdateError where
  | getLatestBlockNumberFailed
  | outOfOrderEpoch
  | pricerError
  | updateL2GasPriceFailed
deriving DecidableEq

/-- Embedding of `(g *GasPriceUpdater) UpdateGasPrice()` from
`l2geth/rollup/gas_price_updater.go` as explicit state passing: the Go
method mutates `g` in place and returns an `error`; here it returns the
final state together with `none` (success) or the error taken.  The
source's order of effects is kept: fetch the latest block number; reject
`latestBlockNumber < g.epochStartBlockNumber`; compute the average rate;
run `CompleteEpoch` (returning its error without touching the
checkpoint); then assign `g.epochStartBlockNumber = latestBlockNumber`;
then call `updateL2GasPriceFn(g.gasPricer.curPrice)`, whose error is
returned after the checkpoint assignment. -/
def UpdateGasPrice {P : Type} (g : GasPriceUpdater P) (env : UpdateEnv P) :
    GasPriceUpdater P × Option UpdateError :=
  match env.getLatestBlockNumber with
  | none => (g, some .getLatestBlockNumberFailed)
  | some latestBlockNumber =>
    if latestBlockNumber < g.epochStartBlockNumber then
      (g, some .outOfOrderEpoch)
    else
      let averageGasPerSecond : ℚ :=
        (GetAverageGasPerSecond g.epochStartBlockNumber latestBlockNumber
          g.epochLengthSeconds g.averageBlockGasLimit : ℕ)
      match env.completeEpoch g.gasPricer averageGasPerSecond with
      | .error _ => (g, some .pricerError)
      | .ok (_, p') =>
        let g' := { g with gasPricer := p'
                           epochStartBlockNumber := latestBlockNumber }
        let writeError : Option UpdateError :=
          match env.updateL2GasPrice (env.curPrice p') with
          | none => some .updateL2GasPriceFailed
          | some _ => none
        (g', writeError)

/-- A sequence of `UpdateGasPrice` calls, each against its own observed
environment, keeping the final updater state. -/
def runUpdates {P : Type} (g : GasPriceUpdater P)
    (envs : List (UpdateEnv P)) : GasPriceUpdater P :=
  envs.foldl (fun g e => (UpdateGasPrice g e).1) g

/-- The failure modes of `CompleteEpoch` named by the spec. -/
inductive PricerError where
  | invalidInput
  | invalidConfiguration
deriving DecidableEq

/-- Modelled from the spec: the `GasPricer` / `L2GasPricer` state (its
source file `gas_pricer.go` is not among the sources; only its caller
`UpdateGasPrice` and its constructor call in `NewGasPriceOracle` are).
Per spec §4.1 it holds the current price, the floor price, the
target-rate accessor (modelled as the value the accessor returns at this
call), and the symmetric per-epoch change bound.  Prices are `ℚ`. -/
structure L2GasPricer where
  curPrice : ℚ
  floorPrice : ℚ
  targetGasPerSecond : ℚ
  maxPercentChangePerEpoch : ℚ
deriving DecidableEq

/-- Modelled from the spec: `CompleteEpoch(observedGasPerSecond)` of the
absent `gas_pricer.go`, following spec §4.1 steps 1-6 literally: reject a
negative observed rate (`ℚ` has no non-finite values, so the non-finite
half of step 1 has no counterpart); reject `target <= 0`; compute
`ratio = observedGasPerSecond / target`; clamp it to
`[1 - maxPercentChangePerEpoch, 1 + maxPercentChangePerEpoch]`; take the
candidate `curPrice * clampedRatio`; apply the floor with `max`; commit
the result as the new current price.  A failed call returns the error and
leaves the state unchanged (spec's atomic-update semantics). -/
def CompleteEpoch (p : L2GasPricer) (observedGasPerSecond : ℚ) :
    Except PricerError (ℚ × L2GasPricer) :=
  if observedGasPerSecond < 0 then
    .error .invalidInput
  else if p.targetGasPerSecond ≤ 0 then
    .error .invalidConfiguration
  else
    let ratio := observedGasPerSecond / p.targetGasPerSecond
    let clampedRatio := max (1 - p.maxPercentChangePerEpoch)
      (min (1 + p.maxPercentChangePerEpoch) ratio)
    let candidate := p.curPrice * clampedRatio
    let newPrice := max candidate p.floorPrice
    .ok (newPrice, { p with curPrice := newPrice })

/-- Modelled from the spec: the significance predicate exactly as the
spec's prose describes it, `|a - b| / min(a, b) > significantFactor`
(normalisation by the smaller of the two values).  The implementation
`isDifferenceSignificant` is absent from the sources; this definition
follows the spec's words so it can be compared against the repository's
own test cases (`TestIsDifferenceSignificant`). -/
def isSignificantSpec (a b significantFactor : ℚ) : Bool :=
  |a - b| / min a b > significantFactor

/-- Modelled from the repository's test `TestIsDifferenceSignificant`
(the implementation `isDifferenceSignificant` is absent from the
sources): relative difference normalised by the larger of the two values,
`|a - b| / max(a, b) > significantFactor`.  This is the unique
ratio-threshold base consistent with all four test cases; normalising by
the smaller value contradicts the `(4, 1, 0.9) = false` case. -/
def isDifferenceSignificant (a b significantFactor : ℚ) : Bool :=
  |a - b| / max a b > significantFactor

/-- Whether the `for`/`select` loop of `Loop` in
`go/gas-oracle/oracle/gas_price_oracle.go` keeps iterating after a tick. -/
inductive LoopControl where
  | continueLoop
  | stopLoop
deriving DecidableEq

/-- Embedding of one timer tick of `Loop` from
`go/gas-oracle/oracle/gas_price_oracle.go`: read the on-chain gas price
(`g.contract.GasPrice`; `none` models an error — `log.Error` then
`continue`); call `gasPriceUpdater.UpdateGasPrice()` (an error is
`log.Error` then `continue`); on success log and fall through to the next
iteration.  Every exit of the tick body reaches the next loop iteration:
the loop leaves this path only through the external cancellation branch
(`ctx.Done`), which is not part of a timer tick. -/
def loopTick {P : Type} (gasPriceRead : Option ℚ) (g : GasPriceUpdater P)
    (env : UpdateEnv P) : GasPriceUpdater P × LoopControl :=
  match gasPriceRead with
  | none => (g, .continueLoop)
  | some _ =>
    match UpdateGasPrice g env with
    | (g', some _) => (g', .continueLoop)
    | (g', none) => (g', .continueLoop)

/-- The possible results of `Start` from
`go/gas-oracle/oracle/gas_price_oracle.go`: its three error returns, the
propagated owner-fetch error, and the success path that launches `Loop`
in a fresh goroutine and returns `nil` immediately. -/
inductive StartResult where
  | errNoChainID
  | errNoPrivateKey
  | ownerFetchError
  | errInvalidSigningKey
  | loopLaunched
deriving DecidableEq

/-- Embedding of `(g *GasPriceOracle) Start()` from
`go/gas-oracle/oracle/gas_price_oracle.go`.  The configured chain id and
private key are `Option`s (`nil` pointers model as `none`); key-to-address
derivation (`crypto.PubkeyToAddress`) is an abstract function
`pubkeyToAddress` on an abstract key type `K` with `ℕ` addresses; the
result of the one `g.contract.Owner` call is passed in (`none` models a
fetch error).  Source order: chain-id check, private-key check, owner
fetch, address comparison, `go g.Loop()`. -/
def Start {K : Type} (chainID : Option ℕ) (privateKey : Option K)
    (pubkeyToAddress : K → ℕ) (fetchOwner : Option ℕ) : StartResult :=
  match chainID with
  | none => .errNoChainID
  | some _ =>
    match privateKey with
    | none => .errNoPrivateKey
    | some key =>
      match fetchOwner with
      | none => .ownerFetchError
      | some owner =>
        if pubkeyToAddress key ≠ owner then .errInvalidSigningKey
        else .loopLaunched

/-- The command-line context seen by `NewConfig` in
`go/gas-oracle/oracle/config.go`: for each flag, `none` models
`ctx.GlobalIsSet(flag) = false` and `some v` models a set flag with value
`v`.  Addresses and parsed private keys are modelled as `ℕ`; float64 flag
values as `ℚ`. -/
structure CliContext where
  ethereumHttpUrl : Option String
  chainID : Option ℕ
  gasPriceOracleAddress : Option ℕ
  privateKey : Option ℕ
  transactionGasPrice : Option ℕ
  floorPrice : Option ℚ
  targetGasPerSecond : Option ℚ
  maxPercentChangePerEpoch : Option ℚ
  averageBlockGasLimitPerEpoch : Option ℚ
  epochLengthSeconds : Option ℚ
  significantFactor : Option ℚ
deriving DecidableEq

/-- The `Config` struct of `go/gas-oracle/oracle/config.go` (fields the
claims examine; pointer-typed fields stay `Option`, zero-value defaults
are the zero values of the model types). -/
structure Config where
  chainID : Option ℕ
  ethereumHttpUrl : String
  gasPriceOracleAddress : ℕ
  privateKey : Option ℕ
  gasPrice : Option ℕ
  floorPrice : ℚ
  targetGasPerSecond : ℚ
  maxPercentChangePerEpoch : ℚ
  averageBlockGasLimitPerEpoch : ℚ
  epochLengthSeconds : ℚ
  significantFactor : ℚ
deriving DecidableEq

/-- The flags whose absence makes `NewConfig` call `log.Crit` (fatal
process exit), in the order the source checks them. -/
inductive MissingOption where
  | targetGasPerSecond
  | maxPercentChangePerEpoch
  | averageBlockGasLimitPerEpoch
  | epochLengthSeconds
deriving DecidableEq

/-- Embedding of `NewConfig` from `go/gas-oracle/oracle/config.go`.
`log.Crit` exits the process, modelled as `Except.error` naming the first
missing required flag in source order.  `gasPriceOracleAddress` defaults
to `0x420000000000000000000000000000000000000F` and `significantFactor`
to `0.05`; unset optional flags leave the Go zero value (empty string,
`nil` pointer, `0.0` float).  Note the source has no `log.Crit` branch
for `floorPrice`: an unset floor price silently stays `0`. -/
def NewConfig (ctx : CliContext) : Except MissingOption Config :=
  match ctx.targetGasPerSecond with
  | none => .error .targetGasPerSecond
  | some targetGasPerSecond =>
    match ctx.maxPercentChangePerEpoch with
    | none => .error .maxPercentChangePerEpoch
    | some maxPercentChangePerEpoch =>
      match ctx.averageBlockGasLimitPerEpoch with
      | none => .error .averageBlockGasLimitPerEpoch
      | some averageBlockGasLimitPerEpoch =>
        match ctx.epochLengthSeconds with
        | none => .error .epochLengthSeconds
        | some epochLengthSeconds =>
          .ok { chainID := ctx.chainID
                ethereumHttpUrl := ctx.ethereumHttpUrl.getD ""
                gasPriceOracleAddress :=
                  ctx.gasPriceOracleAddress.getD
                    0x420000000000000000000000000000000000000F
                privateKey := ctx.privateKey
                gasPrice := ctx.transactionGasPrice
                floorPrice := ctx.floorPrice.getD 0
                targetGasPerSecond := targetGasPerSecond
                maxPercentChangePerEpoch := maxPercentChangePerEpoch
                averageBlockGasLimitPerEpoch := averageBlockGasLimitPerEpoch
                epochLengthSeconds := epochLengthSeconds
                significantFactor := ctx.significantFactor.getD (1 / 20) }

/-- `true` iff `NewConfig` reached its final `return &cfg` (no
`log.Crit`). -/
def configOk (r : Except MissingOption Config) : Bool :=
  match r with
  | .ok _ => true
  | .error _ => false

/-! Concrete fixtures used to instantiate the theorems below on explicit
inputs. -/

/-- A concrete updater (pricer state collapsed to `Unit`) whose epoch
checkpoint sits at block 5. -/
def g5 : GasPriceUpdater Unit :=
  { gasPricer := ()
    epochStartBlockNumber := 5
    averageBlockGasLimit := 1
    epochLengthSeconds := 1 }

/-- A concrete environment over the `Unit` pricer: the latest-block fetch
returns `latest`, `CompleteEpoch` succeeds returning price 7, and the
price write succeeds. -/
def unitPricerEnv (latest : Option ℕ) : UpdateEnv Unit :=
  { getLatestBlockNumber := latest
    completeEpoch := fun p _ => .ok (7, p)
    curPrice := fun _ => 7
    updateL2GasPrice := fun _ => some () }

/-- A concrete environment whose latest-block fetch returns 9 but whose
`CompleteEpoch` fails. -/
def failPricerEnv : UpdateEnv Unit :=
  { getLatestBlockNumber := some 9
    completeEpoch := fun _ _ => .error ()
    curPrice := fun _ => 7
    updateL2GasPrice := fun _ => some () }

/-- A concrete pricer whose floor price (100) exceeds
`curPrice * (1 + maxPercentChangePerEpoch)` (1.1). -/
def floorPricer : L2GasPricer :=
  { curPrice := 1
    floorPrice := 100
    targetGasPerSecond := 1
    maxPercentChangePerEpoch := 1 / 10 }

/-- The pricer of the spec's end-to-end example: current price 10, floor
0, target 100, max change 0.1. -/
def demoPricer : L2GasPricer :=
  { curPrice := 10
    floorPrice := 0
    targetGasPerSecond := 100
    maxPercentChangePerEpoch := 1 / 10 }

/-- `demoPricer` after one epoch observing rate 200 (double the target):
the price is clamped to `10 * 1.1 = 11`. -/
def demoPricerAfter : L2GasPricer :=
  { curPrice := 11
    floorPrice := 0
    targetGasPerSecond := 100
    maxPercentChangePerEpoch := 1 / 10 }

/-- A concrete CLI context with the four required flags set and the floor
price flag unset. -/
def ctxNoFloor : CliContext :=
  { ethereumHttpUrl := none
    chainID := none
    gasPriceOracleAddress := none
    privateKey := none
    transactionGasPrice := none
    floorPrice := none
    targetGasPerSecond := some 1
    maxPercentChangePerEpoch := some 1
    averageBlockGasLimitPerEpoch := some 1
    epochLengthSeconds := some 1
    significantFactor := some 1 }

/-- The configuration `NewConfig` builds from `ctxNoFloor` (floor price
defaulted to the Go zero value `0`). -/
def cfgNoFloor : Config :=
  { chainID := none
    ethereumHttpUrl := ""
    gasPriceOracleAddress := 0x420000000000000000000000000000000000000F
    privateKey := none
    gasPrice := none
    floorPrice := 0
    targetGasPerSecond := 1
    maxPercentChangePerEpoch := 1
    averageBlockGasLimitPerEpoch := 1
    epochLengthSeconds := 1
    significantFactor := 1 }

/-- A concrete updater with checkpoint 2, block gas limit 3, epoch length
4, matching `NewGasPriceUpdater () 2 3 4`. -/
def gpu1 : GasPriceUpdater Unit :=
  { gasPricer := ()
    epochStartBlockNumber := 2
    averageBlockGasLimit := 3
    epochLengthSeconds := 4 }

/-! Helper lemmas about `UpdateGasPrice`, shared by several of the claim
theorems below. -/

lemma updateGasPrice_eq_of_lt {P : Type} (g : GasPriceUpdater P)
    (env : UpdateEnv P) (l : ℕ) (hl : env.getLatestBlockNumber = some l)
    (hlt : l < g.epochStartBlockNumber) :
    UpdateGasPrice g env = (g, some UpdateError.outOfOrderEpoch) := by
  unfold UpdateGasPrice
  rw [hl]
  simp [hlt]

lemma updateGasPrice_epochStart_mono {P : Type} (g : GasPriceUpdater P)
    (env : UpdateEnv P) :
    g.epochStartBlockNumber ≤
      ((UpdateGasPrice g env).1).epochStartBlockNumber := by
  unfold UpdateGasPrice
  cases hl : env.getLatestBlockNumber with
  | none => simp
  | some l =>
    by_cases hlt : l < g.epochStartBlockNumber
    · simp [hlt]
    · push_neg at hlt
      simp only [not_lt.mpr hlt, if_false]
      cases hce : env.completeEpoch g.gasPricer
          ((GetAverageGasPerSecond g.epochStartBlockNumber l
            g.epochLengthSeconds g.averageBlockGasLimit : ℕ) : ℚ) with
      | error e => simp
      | ok pr =>
        obtain ⟨price, p'⟩ := pr
        simpa using hlt

lemma updateGasPrice_checkpoint_eq {P : Type} (g : GasPriceUpdater P)
    (env : UpdateEnv P) (l : ℕ) (price : ℚ) (p' : P)
    (hl : env.getLatestBlockNumber = some l)
    (hge : g.epochStartBlockNumber ≤ l)
    (hce : env.completeEpoch g.gasPricer
      ((GetAverageGasPerSecond g.epochStartBlockNumber l
        g.epochLengthSeconds g.averageBlockGasLimit : ℕ) : ℚ) =
      .ok (price, p')) :
    ((UpdateGasPrice g env).1).epochStartBlockNumber = l := by
  unfold UpdateGasPrice
  rw [hl]
  simp [not_lt.mpr hge, hce]

lemma runUpdates_epochStart_mono {P : Type} (g : GasPriceUpdater P)
    (envs : List (UpdateEnv P)) :
    g.epochStartBlockNumber ≤
      (runUpdates g envs).epochStartBlockNumber := by
  induction envs generalizing g with
  | nil => simp [runUpdates]
  | cons e es ih =>
    have h1 := updateGasPrice_epochStart_mono g e
    have h2 := ih (UpdateGasPrice g e).1
    have hfold : runUpdates g (e :: es) =
        runUpdates (UpdateGasPrice g e).1 es := rfl
    rw [hfold]
    exact le_trans h1 h2

/-- C2: whenever the latest-block fetch succeeds with a value strictly
below the stored `epochStartBlockNumber`, `UpdateGasPrice` returns an
error and the stored checkpoint is unchanged afterwards (in fact the whole
updater state is unchanged), so a later call retries from the same
starting point. -/
theorem updateGasPrice_outOfOrder_preserves_checkpoint {P : Type}
    (g : GasPriceUpdater P) (env : UpdateEnv P) (l : ℕ)
    (hl : env.getLatestBlockNumber = some l)
    (hlt : l < g.epochStartBlockNumber) :
    (UpdateGasPrice g env).2 = some UpdateError.outOfOrderEpoch ∧
    ((UpdateGasPrice g env).1).epochStartBlockNumber =
      g.epochStartBlockNumber ∧
    (UpdateGasPrice g env).1 = g := by
  rw [updateGasPrice_eq_of_lt g env l hl hlt]
  exact ⟨rfl, rfl, rfl⟩

/-- Witness for C2: on the concrete updater `g5` (checkpoint 5) with an
observed latest block 3, the call errors and the state is preserved. -/
theorem updateGasPrice_outOfOrder_preserves_checkpoint_witness :
    (UpdateGasPrice g5 (unitPricerEnv (some 3))).2 =
      some UpdateError.outOfOrderEpoch ∧
    ((UpdateGasPrice g5 (unitPricerEnv (some 3))).1).epochStartBlockNumber =
      g5.epochStartBlockNumber ∧
    (UpdateGasPrice g5 (unitPricerEnv (some 3))).1 = g5 :=
  updateGasPrice_outOfOrder_preserves_checkpoint g5 (unitPricerEnv (some 3))
    3 rfl (by decide)

/-- C3: whenever the latest-block fetch succeeds with
`latestBlockNumber ≥ epochStartBlockNumber` and the pricer's
`CompleteEpoch` succeeds, the stored checkpoint afterwards equals that
latest block number — regardless of what the subsequent
`updateL2GasPriceFn` call returns (the environment's `updateL2GasPrice`
is universally quantified, covering both a gated-off no-op success and an
error). -/
theorem updateGasPrice_advances_checkpoint {P : Type}
    (g : GasPriceUpdater P) (env : UpdateEnv P) (l : ℕ) (price : ℚ) (p' : P)
    (hl : env.getLatestBlockNumber = some l)
    (hge : g.epochStartBlockNumber ≤ l)
    (hce : env.completeEpoch g.gasPricer
      ((GetAverageGasPerSecond g.epochStartBlockNumber l
        g.epochLengthSeconds g.averageBlockGasLimit : ℕ) : ℚ) =
      .ok (price, p')) :
    ((UpdateGasPrice g env).1).epochStartBlockNumber = l :=
  updateGasPrice_checkpoint_eq g env l price p' hl hge hce

/-- Witness for C3: on `g5` (checkpoint 5) observing latest block 9 with
a succeeding pricer, the checkpoint afterwards is 9. -/
theorem updateGasPrice_advances_checkpoint_witness :
    ((UpdateGasPrice g5 (unitPricerEnv (some 9))).1).epochStartBlockNumber
      = 9 :=
  updateGasPrice_advances_checkpoint g5 (unitPricerEnv (some 9)) 9 7 ()
    rfl (by decide) rfl

/-- C4: across every sequence of `UpdateGasPrice` calls the stored
`epochStartBlockNumber` is monotonically non-decreasing, and a call whose
observed latest block number is below the checkpoint is rejected with the
out-of-order error leaving the state untouched — never silently
clamped. -/
theorem epochStart_monotone {P : Type} (g : GasPriceUpdater P)
    (envs : List (UpdateEnv P)) :
    g.epochStartBlockNumber ≤ (runUpdates g envs).epochStartBlockNumber ∧
    ∀ env l, env.getLatestBlockNumber = some l →
      l < g.epochStartBlockNumber →
      UpdateGasPrice g env = (g, some UpdateError.outOfOrderEpoch) :=
  ⟨runUpdates_epochStart_mono g envs,
   fun env l hl hlt => updateGasPrice_eq_of_lt g env l hl hlt⟩

/-- Witness for C4: a concrete three-call sequence on `g5` does not
decrease the checkpoint, and the concrete below-checkpoint observation 0
is rejected with the state unchanged. -/
theorem epochStart_monotone_witness :
    g5.epochStartBlockNumber ≤
      (runUpdates g5 [unitPricerEnv (some 9), failPricerEnv,
        unitPricerEnv (some 12)]).epochStartBlockNumber ∧
    UpdateGasPrice g5 (unitPricerEnv (some 0)) =
      (g5, some UpdateError.outOfOrderEpoch) :=
  ⟨(epochStart_monotone g5 [unitPricerEnv (some 9), failPricerEnv,
      unitPricerEnv (some 12)]).1,
   (epochStart_monotone g5 [unitPricerEnv (some 9), failPricerEnv,
      unitPricerEnv (some 12)]).2 (unitPricerEnv (some 0)) 0 rfl
      (by decide)⟩

/-- C10: `NewGasPriceUpdater` returns an error exactly when
`averageBlockGasLimit < 1` or `epochLengthSeconds < 1`; its
`epochStartBlockNumber < 0` check can never fire on an unsigned value;
and every successfully constructed updater stores
`epochLengthSeconds ≥ 1` (hence a non-zero divisor for the division in
`GetAverageGasPerSecond`, which `UpdateGasPrice` invokes with
`g.epochLengthSeconds`). -/
theorem newGasPriceUpdater_validation {P : Type} (gasPricer : P)
    (e a s : ℕ) :
    ((∃ msg, NewGasPriceUpdater gasPricer e a s = .error msg) ↔
      a < 1 ∨ s < 1) ∧
    ¬ e < 0 ∧
    ∀ u, NewGasPriceUpdater gasPricer e a s = .ok u →
      1 ≤ u.epochLengthSeconds ∧ u.epochLengthSeconds ≠ 0 ∧
      u = { gasPricer := gasPricer, epochStartBlockNumber := e,
            averageBlockGasLimit := a, epochLengthSeconds := s } := by
  refine ⟨?_, by omega, ?_⟩
  · by_cases ha : a < 1 <;> by_cases hs : s < 1 <;>
      simp [NewGasPriceUpdater, ha, hs]
  · intro u hu
    by_cases ha : a < 1 <;> by_cases hs : s < 1 <;>
      simp [NewGasPriceUpdater, ha, hs] at hu
    subst hu
    exact ⟨show 1 ≤ s by omega, show s ≠ 0 by omega, rfl⟩

/-- Witness for C10: `NewGasPriceUpdater () 2 3 4` succeeds and the
constructed updater `gpu1` stores epoch length 4 ≥ 1. -/
theorem newGasPriceUpdater_validation_witness :
    1 ≤ gpu1.epochLengthSeconds ∧ gpu1.epochLengthSeconds ≠ 0 ∧
    gpu1 = { gasPricer := (), epochStartBlockNumber := 2,
             averageBlockGasLimit := 3, epochLengthSeconds := 4 } :=
  (newGasPriceUpdater_validation () 2 3 4).2.2 gpu1 rfl

/-- Counterexample to C1: at `epochStartBlockNumber = 1`,
`latestBlockNumber = 2`, `epochLengthSeconds = 2`,
`averageBlockGasLimit = 1` (all ≥ 1 and `latest ≥ start`), the code's
`uint64` division yields `1 * 1 / 2 = 0`, not the real-valued quotient
`1 / 2`. -/
theorem getAverageGasPerSecond_truncates :
    GetAverageGasPerSecond 1 2 2 1 = 0 ∧
    (GetAverageGasPerSecond 1 2 2 1 : ℚ) ≠ (((2 : ℚ) - 1) * 1) / 2 := by
  have h : GetAverageGasPerSecond 1 2 2 1 = 0 := by decide
  refine ⟨h, ?_⟩
  rw [h]
  norm_num

/-- C1 (amended): under the claim's hypotheses, and with the intermediate
`uint64` values in range (`latestBlockNumber < 2 ^ 64` and
`(latestBlockNumber - epochStartBlockNumber) * averageBlockGasLimit <
2 ^ 64`), `GetAverageGasPerSecond` returns not the real-valued quotient
but its integer floor: the truncating `uint64` quotient
`(latestBlockNumber - epochStartBlockNumber) * averageBlockGasLimit /
epochLengthSeconds`, which equals
`⌊(latestBlockNumber - epochStartBlockNumber) * averageBlockGasLimit /
epochLengthSeconds⌋` over the rationals. -/
theorem getAverageGasPerSecond_floor_div (e l s a : ℕ)
    (he : 1 ≤ e) (hs : 1 ≤ s) (ha : 1 ≤ a) (hel : e ≤ l)
    (hl : l < UINT64_LIMIT) (hprod : (l - e) * a < UINT64_LIMIT) :
    GetAverageGasPerSecond e l s a = (l - e) * a / s ∧
    GetAverageGasPerSecond e l s a = ⌊(((l : ℚ) - e) * a) / s⌋₊ := by
  have hsub : (l + UINT64_LIMIT - e) % UINT64_LIMIT = l - e := by
    have h1 : l + UINT64_LIMIT - e = (l - e) + UINT64_LIMIT := by omega
    rw [h1, Nat.add_mod_right, Nat.mod_eq_of_lt (by omega)]
  have hmul : (l - e) * a % UINT64_LIMIT = (l - e) * a :=
    Nat.mod_eq_of_lt hprod
  have hcode : GetAverageGasPerSecond e l s a = (l - e) * a / s := by
    unfold GetAverageGasPerSecond
    rw [hsub, hmul]
  refine ⟨hcode, ?_⟩
  have hcast : ((l : ℚ) - e) * a = (((l - e) * a : ℕ) : ℚ) := by
    push_cast [hel]
    ring
  rw [hcode, hcast, Nat.floor_div_eq_div]

/-- Witness for C1 (amended): at start 1, latest 3, epoch length 2,
gas limit 1 the code returns `⌊2 / 2⌋ = 1`. -/
theorem getAverageGasPerSecond_floor_div_witness :
    GetAverageGasPerSecond 1 3 2 1 = (3 - 1) * 1 / 2 ∧
    GetAverageGasPerSecond 1 3 2 1 = ⌊(((3 : ℚ) - 1) * 1) / 2⌋₊ :=
  getAverageGasPerSecond_floor_div 1 3 2 1 (by decide) (by decide)
    (by decide) (by decide) (by decide) (by decide)

/-- Counterexample to C5: the predicate the claim describes,
`|a - b| / min(a, b) > significantFactor`, is `true` at
`(a, b, factor) = (4, 1, 0.9)` (ratio `3 / 1 = 3 > 0.9`), whereas the
claim — and the repository's own test `TestIsDifferenceSignificant` —
requires `IsSignificant(4, 1, 0.9) = false`; so no predicate of that form
satisfies all four literal cases. -/
theorem isSignificantSpec_case4_violated :
    isSignificantSpec 4 1 (9 / 10) = true := by
  simp [isSignificantSpec]
  norm_num

/-- C5 (amended): with the relative difference normalised by the larger
of the two values, `|a - b| / max(a, b) > significantFactor`, all four
literal test cases of `TestIsDifferenceSignificant` hold exactly. -/
theorem isDifferenceSignificant_literal_cases :
    isDifferenceSignificant 1 1 (1 / 20) = false ∧
    isDifferenceSignificant 4 1 (1 / 4) = true ∧
    isDifferenceSignificant 3 1 (1 / 10) = true ∧
    isDifferenceSignificant 4 1 (9 / 10) = false := by
  refine ⟨?_, ?_, ?_, ?_⟩ <;> norm_num [isDifferenceSignificant]

/-- Counterexample to C6: with current price 1, floor price 100, target
1 and max change 0.1, the valid observation `observedGasPerSecond = 1`
yields price 100, which is not within the claimed interval
`[floorPrice, currentPrice * (1 + maxPercentChangePerEpoch)] =
[100, 1.1]` (the floor exceeds the claimed upper bound). -/
theorem completeEpoch_above_claimed_interval :
    CompleteEpoch floorPricer 1 =
      .ok (100, { floorPricer with curPrice := 100 }) ∧
    ¬ ((100 : ℚ) ≤
        floorPricer.curPrice * (1 + floorPricer.maxPercentChangePerEpoch)) := by
  constructor
  · simp [CompleteEpoch, floorPricer]
    norm_num
  · simp [floorPricer]
    norm_num

/-- C6 (amended): for valid inputs (`observedGasPerSecond ≥ 0`,
`target > 0`) with a non-negative current price and a non-negative
`maxPercentChangePerEpoch`, the price returned by `CompleteEpoch` lies
within `[floorPrice, max (currentPrice * (1 + maxPercentChangePerEpoch))
floorPrice]` — the upper bound must admit the floor, which the floor step
can push above `currentPrice * (1 + maxPercentChangePerEpoch)` — and is
never below `currentPrice * (1 - maxPercentChangePerEpoch)`; the returned
price is committed as the new current price. -/
theorem completeEpoch_bounds (p : L2GasPricer) (gps r : ℚ)
    (p' : L2GasPricer)
    (hgps : 0 ≤ gps) (htarget : 0 < p.targetGasPerSecond)
    (hcur : 0 ≤ p.curPrice) (hmax : 0 ≤ p.maxPercentChangePerEpoch)
    (h : CompleteEpoch p gps = .ok (r, p')) :
    p.floorPrice ≤ r ∧
    r ≤ max (p.curPrice * (1 + p.maxPercentChangePerEpoch)) p.floorPrice ∧
    p.curPrice * (1 - p.maxPercentChangePerEpoch) ≤ r ∧
    p'.curPrice = r := by
  unfold CompleteEpoch at h
  rw [if_neg (not_lt.mpr hgps), if_neg (not_le.mpr htarget)] at h
  simp only [Except.ok.injEq, Prod.mk.injEq] at h
  obtain ⟨hr, hp'⟩ := h
  set ratio := gps / p.targetGasPerSecond with hratio
  set clamped := max (1 - p.maxPercentChangePerEpoch)
    (min (1 + p.maxPercentChangePerEpoch) ratio) with hclamped
  have hlo : 1 - p.maxPercentChangePerEpoch ≤ clamped := le_max_left _ _
  have hhi : clamped ≤ 1 + p.maxPercentChangePerEpoch :=
    max_le (by linarith) (min_le_left _ _)
  have hcand_lo : p.curPrice * (1 - p.maxPercentChangePerEpoch) ≤
      p.curPrice * clamped := mul_le_mul_of_nonneg_left hlo hcur
  have hcand_hi : p.curPrice * clamped ≤
      p.curPrice * (1 + p.maxPercentChangePerEpoch) :=
    mul_le_mul_of_nonneg_left hhi hcur
  refine ⟨?_, ?_, ?_, ?_⟩
  · rw [← hr]
    exact le_max_right _ _
  · rw [← hr]
    exact max_le_max hcand_hi le_rfl
  · rw [← hr]
    exact le_trans hcand_lo (le_max_left _ _)
  · rw [← hp', ← hr]

/-- Witness for C6 (amended), on the spec's end-to-end example: current
price 10, floor 0, target 100, max change 0.1, observed rate 200 yields
price 11, which satisfies all three bounds and is committed. -/
theorem completeEpoch_bounds_witness :
    demoPricer.floorPrice ≤ 11 ∧
    (11 : ℚ) ≤ max (demoPricer.curPrice *
      (1 + demoPricer.maxPercentChangePerEpoch)) demoPricer.floorPrice ∧
    demoPricer.curPrice * (1 - demoPricer.maxPercentChangePerEpoch) ≤ 11 ∧
    demoPricerAfter.curPrice = 11 :=
  completeEpoch_bounds demoPricer 200 11 demoPricerAfter
    (by norm_num) (by norm_num [demoPricer]) (by norm_num [demoPricer])
    (by norm_num [demoPricer])
    (by simp [CompleteEpoch, demoPricer, demoPricerAfter]; norm_num)

/-- Counterexample to C7: on the concrete updater `g5` and an environment
whose `CompleteEpoch` fails, `UpdateGasPrice` surfaces the pricer error,
yet the loop tick yields `continueLoop` — the `Loop` of
`gas_price_oracle.go` logs the error and `continue`s to the next timer
fire instead of stopping. -/
theorem loopTick_pricer_error_not_fatal :
    (UpdateGasPrice g5 failPricerEnv).2 = some UpdateError.pricerError ∧
    (loopTick (some 1) g5 failPricerEnv).2 = LoopControl.continueLoop ∧
    LoopControl.continueLoop ≠ LoopControl.stopLoop := by
  refine ⟨rfl, rfl, by decide⟩

/-- C7 (amended): whenever `CompleteEpoch` fails during a tick (the
pricer error propagating out of `UpdateGasPrice`), the tick leaves the
updater in the error-path state and the loop continues to the next tick;
no `UpdateGasPrice` error stops the loop, which exits only through the
external cancellation branch. -/
theorem loopTick_continues_on_pricer_error {P : Type} (gasPriceRead : ℚ)
    (g : GasPriceUpdater P) (env : UpdateEnv P)
    (h : (UpdateGasPrice g env).2 = some UpdateError.pricerError) :
    loopTick (some gasPriceRead) g env =
      ((UpdateGasPrice g env).1, LoopControl.continueLoop) := by
  unfold loopTick
  rcases hu : UpdateGasPrice g env with ⟨g', err⟩
  cases err <;> simp

/-- Witness for C7 (amended): the concrete failing-pricer tick on `g5`
continues the loop. -/
theorem loopTick_continues_on_pricer_error_witness :
    loopTick (some 1) g5 failPricerEnv =
      ((UpdateGasPrice g5 failPricerEnv).1, LoopControl.continueLoop) :=
  loopTick_continues_on_pricer_error 1 g5 failPricerEnv rfl

/-- Counterexample to C8: a configuration with a signing key (address 3)
differing from the contract owner (address 9) but no chain id makes
`Start` return `errNoChainID`, not the unauthorized-signer error — the
chain-id and private-key nil checks run before the ownership check. -/
theorem start_mismatch_without_chainID :
    Start none (some 3) (fun k => k) (some 9) = StartResult.errNoChainID ∧
    (fun (k : ℕ) => k) 3 ≠ 9 ∧
    StartResult.errNoChainID ≠ StartResult.errInvalidSigningKey := by
  refine ⟨rfl, by decide, by decide⟩

/-- C8 (amended): when chain id and private key are present and the owner
fetch succeeds, a signing address differing from the owner makes `Start`
return the unauthorized-signer error (so the loop is never launched); and
`Start` launches the loop (returning immediately) exactly when chain id
and private key are present, the owner fetch succeeds, and the derived
address equals the owner. -/
theorem start_authorization {K : Type} (chainID : Option ℕ)
    (privateKey : Option K) (pubkeyToAddress : K → ℕ)
    (fetchOwner : Option ℕ) :
    (∀ c k o, chainID = some c → privateKey = some k →
      fetchOwner = some o → pubkeyToAddress k ≠ o →
      Start chainID privateKey pubkeyToAddress fetchOwner =
        StartResult.errInvalidSigningKey) ∧
    (Start chainID privateKey pubkeyToAddress fetchOwner =
        StartResult.loopLaunched ↔
      ∃ c k o, chainID = some c ∧ privateKey = some k ∧
        fetchOwner = some o ∧ pubkeyToAddress k = o) := by
  constructor
  · rintro c k o rfl rfl rfl hne
    simp [Start, hne]
  · cases chainID with
    | none => simp [Start]
    | some c =>
      cases privateKey with
      | none => simp [Start]
      | some k =>
        cases fetchOwner with
        | none => simp [Start]
        | some o =>
          by_cases hk : pubkeyToAddress k = o
          · simp [Start, hk]
          · simp [Start, hk]

/-- Witness for C8 (amended): with chain id 5 present, key 3 deriving
address 3 ≠ owner 9 gives the unauthorized-signer error; key 9 deriving
address 9 = owner 9 launches the loop. -/
theorem start_authorization_witness :
    Start (some 5) (some 3) (fun k => k) (some 9) =
      StartResult.errInvalidSigningKey ∧
    Start (some 5) (some 9) (fun k => k) (some 9) =
      StartResult.loopLaunched :=
  ⟨(start_authorization (some 5) (some 3) (fun k => k) (some 9)).1
      5 3 9 rfl rfl rfl (by decide),
   (start_authorization (some 5) (some 9) (fun k => k) (some 9)).2.mpr
      ⟨5, 9, 9, rfl, rfl, rfl, rfl⟩⟩

/-- Counterexample to C9: a CLI context with the floor-price flag unset
but the four `log.Crit`-guarded flags set makes `NewConfig` succeed — the
absence of the floor price is not fatal (the source has no `log.Crit`
branch for it; the value silently defaults to 0). -/
theorem newConfig_missing_floorPrice_not_fatal :
    configOk (NewConfig ctxNoFloor) = true ∧
    ctxNoFloor.floorPrice = none := by
  exact ⟨rfl, rfl⟩

/-- C9 (amended): `NewConfig` exits fatally (modelled as `Except.error`)
exactly when one of target rate, max percent change per epoch, average
per-block capacity, or epoch length is absent; the floor price is not
required and defaults to 0 when absent, and the significance factor
defaults to 0.05 and its absence is not fatal. -/
theorem newConfig_required_options (ctx : CliContext) :
    (configOk (NewConfig ctx) = true ↔
      (ctx.targetGasPerSecond.isSome ∧
       ctx.maxPercentChangePerEpoch.isSome ∧
       ctx.averageBlockGasLimitPerEpoch.isSome ∧
       ctx.epochLengthSeconds.isSome)) ∧
    ∀ cfg, NewConfig ctx = .ok cfg →
      cfg.floorPrice = ctx.floorPrice.getD 0 ∧
      cfg.significantFactor = ctx.significantFactor.getD (1 / 20) := by
  constructor
  · cases ht : ctx.targetGasPerSecond with
    | none => simp [NewConfig, configOk, ht]
    | some t =>
      cases hm : ctx.maxPercentChangePerEpoch with
      | none => simp [NewConfig, configOk, ht, hm]
      | some m =>
        cases hb : ctx.averageBlockGasLimitPerEpoch with
        | none => simp [NewConfig, configOk, ht, hm, hb]
        | some b =>
          cases he : ctx.epochLengthSeconds with
          | none => simp [NewConfig, configOk, ht, hm, hb, he]
          | some l => simp [NewConfig, configOk, ht, hm, hb, he]
  · intro cfg hcfg
    cases ht : ctx.targetGasPerSecond with
    | none => simp [NewConfig, ht] at hcfg
    | some t =>
      cases hm : ctx.maxPercentChangePerEpoch with
      | none => simp [NewConfig, ht, hm] at hcfg
      | some m =>
        cases hb : ctx.averageBlockGasLimitPerEpoch with
        | none => simp [NewConfig, ht, hm, hb] at hcfg
        | some b =>
          cases he : ctx.epochLengthSeconds with
          | none => simp [NewConfig, ht, hm, hb, he] at hcfg
          | some l =>
            simp only [NewConfig, ht, hm, hb, he, Except.ok.injEq] at hcfg
            rw [← hcfg]
            exact ⟨rfl, rfl⟩

/-- Witness for C9 (amended): on the concrete context `ctxNoFloor` the
equivalence holds and the built configuration defaults the floor price. -/
theorem newConfig_required_options_witness :
    (configOk (NewConfig ctxNoFloor) = true ↔
      (ctxNoFloor.targetGasPerSecond.isSome ∧
       ctxNoFloor.maxPercentChangePerEpoch.isSome ∧
       ctxNoFloor.averageBlockGasLimitPerEpoch.isSome ∧
       ctxNoFloor.epochLengthSeconds.isSome)) ∧
    (cfgNoFloor.floorPrice = ctxNoFloor.floorPrice.getD 0 ∧
     cfgNoFloor.significantFactor =
       ctxNoFloor.significantFactor.getD (1 / 20)) :=
  ⟨(newConfig_required_options ctxNoFloor).1,
   (newConfig_required_options ctxNoFloor).2 cfgNoFloor rfl⟩

end GasOracle
